import Mathlib

/-!
Shallow embedding of the tax-calculation engine of `tax_core` (files
`tax_core/models.py` and `tax_core/calculators.py`).

Conventions of the embedding:

* Python floats are modelled as exact rationals (`ℚ`); Python ints as `ℤ`
  (list indices as `ℕ`).
* A `CalculationStep` in the source carries the string fields `id`,
  `description`, `formula`, `values` (the formula with literal numbers
  substituted), the numeric `result`, and `legal_ref`.  The purely
  presentational strings `description` and `legal_ref` are dropped; the
  `formula`/`values` pair is modelled jointly by the structured field
  `values : StepValues`, which records the shape of the formula together
  with the exact operand values the code substitutes into the `values`
  string (display rounding to two decimals is string formatting and is not
  modelled).
* Each imperative per-entry loop `for idx, x in enumerate(xs): ...` that
  appends to local `steps` / `warnings` lists and accumulates `total_tax`
  is translated as per-entry functions (steps, warnings, tax contribution)
  combined with `List.enum`, `List.map`, `List.flatten` and `List.sum`, which
  preserves entry order.
-/

namespace TaxCore

/-- Residency status (`models.ResidencyStatus`). -/
inductive ResidencyStatus where
  | RESIDENT
  | NON_RESIDENT
deriving DecidableEq

/-- Salary income input (`models.SalaryIncome`). -/
structure SalaryIncome where
  monthly_gross : ℚ := 0
  months : ℤ := 12
  pension_employee_rate : ℚ := 0.02
deriving DecidableEq

/-- Micro business income input (`models.MicroBusinessIncome`). -/
structure MicroBusinessIncome where
  turnover : ℚ := 0
  no_employees : Bool := true
  activity_allowed : Bool := true
deriving DecidableEq

/-- Small business income input (`models.SmallBusinessIncome`). -/
structure SmallBusinessIncome where
  turnover : ℚ := 0
  registered : Bool := true
deriving DecidableEq

/-- Rental income input (`models.RentalIncome`). -/
structure RentalIncome where
  monthly_rent : ℚ := 0
  months : ℤ := 12
  special_5_percent : Bool := true
deriving DecidableEq

/-- Capital gains income input (`models.CapitalGainsIncome`); the optional
`purchase_date`/`sale_date` strings are never read by any calculator and are
omitted. -/
structure CapitalGainsIncome where
  purchase_price : ℚ := 0
  sale_price : ℚ := 0
  is_primary_residence : Bool := false
deriving DecidableEq

/-- Dividends income input (`models.DividendsIncome`). -/
structure DividendsIncome where
  amount : ℚ := 0
deriving DecidableEq

/-- Interest income input (`models.InterestIncome`). -/
structure InterestIncome where
  amount : ℚ := 0
deriving DecidableEq

/-- Property tax input (`models.PropertyTaxInput`). -/
structure PropertyTaxInput where
  family_income : ℚ := 0
  properties : ℤ := 0
  property_values : List ℚ := []
  tax_rate : ℚ := 0.01
  income_threshold : ℚ := 40000
deriving DecidableEq

/-- User profile (`models.UserProfile`); `__post_init__` only replaces `None`
lists by empty lists, so the lists are modelled as plain (possibly empty)
lists. -/
structure UserProfile where
  year : ℤ := 2025
  residency : ResidencyStatus := ResidencyStatus.RESIDENT
  family_income : ℚ := 0
  salary : List SalaryIncome := []
  micro_business : List MicroBusinessIncome := []
  small_business : List SmallBusinessIncome := []
  rental : List RentalIncome := []
  capital_gains : List CapitalGainsIncome := []
  dividends : List DividendsIncome := []
  interest : List InterestIncome := []
  property_tax : List PropertyTaxInput := []
deriving DecidableEq

/-- Structured model of a step's `formula`/`values` pair: the shape of the
formula and the exact operand values the code substitutes into the `values`
string.  `assignLit v` is a formula whose right-hand side is the single
literal `v` (e.g. `tax = 0`, `total = 10,000.00`); `compareGT a b` is the
property-tax family-income check, whose `formula`/`values` pair is the bare
comparison `a > b` and not an assignment at all. -/
inductive StepValues where
  | assignLit (v : ℚ)
  | assignMul (a b : ℚ)
  | assignMul3 (a b c : ℚ)
  | assignAdd (a b : ℚ)
  | assignSub (a b : ℚ)
  | compareGT (a b : ℚ)
deriving DecidableEq

/-- The numeric value obtained by evaluating a step's formula against its
recorded operand values; `none` when the formula is not an assignment
producing a number (the bare `a > b` comparison). -/
def evalValues : StepValues → Option ℚ
  | StepValues.assignLit v => some v
  | StepValues.assignMul a b => some (a * b)
  | StepValues.assignMul3 a b c => some (a * b * c)
  | StepValues.assignAdd a b => some (a + b)
  | StepValues.assignSub a b => some (a - b)
  | StepValues.compareGT _ _ => none

/-- A single calculation step (`models.CalculationStep`): its `id`, the
structured `formula`/`values` pair, and the recorded numeric `result`. -/
structure CalculationStep where
  id : String
  values : StepValues
  result : ℚ
deriving DecidableEq

/-- Result for one tax regime (`models.RegimeResult`). -/
structure RegimeResult where
  regime_id : String
  tax : ℚ
  steps : List CalculationStep
  warnings : List String := []
deriving DecidableEq

/-- Complete calculation result (`models.CalculationResult`). -/
structure CalculationResult where
  year : ℤ
  rules_version : String
  residency : ResidencyStatus
  total_tax : ℚ
  effective_rate : ℚ
  by_regime : List RegimeResult
  total_income : ℚ := 0
deriving DecidableEq

/-! ## Salary calculator (`calculate_salary`) -/

/-- Steps emitted for one salary entry: skipped when gross or months is
non-positive, otherwise the annual-gross, pension and PIT steps. -/
def salarySteps (idx : ℕ) (s : SalaryIncome) : List CalculationStep :=
  if s.monthly_gross ≤ 0 ∨ s.months ≤ 0 then []
  else
    let annual_gross := s.monthly_gross * (s.months : ℚ)
    let pension_contribution := annual_gross * s.pension_employee_rate
    let pit := annual_gross * 0.20
    [ ⟨"salary_" ++ toString idx ++ "_gross",
        StepValues.assignMul s.monthly_gross (s.months : ℚ), annual_gross⟩,
      ⟨"salary_" ++ toString idx ++ "_pension",
        StepValues.assignMul annual_gross s.pension_employee_rate,
        pension_contribution⟩,
      ⟨"salary_" ++ toString idx ++ "_pit",
        StepValues.assignMul annual_gross 0.20, pit⟩ ]

/-- Tax contribution of one salary entry: only the PIT is added to the
regime total (the pension step is informational). -/
def salaryTax (s : SalaryIncome) : ℚ :=
  if s.monthly_gross ≤ 0 ∨ s.months ≤ 0 then 0
  else s.monthly_gross * (s.months : ℚ) * 0.20

/-- `calculate_salary`. -/
def calculate_salary (xs : List SalaryIncome) : RegimeResult :=
  { regime_id := "salary"
    tax := (xs.map salaryTax).sum
    steps := (xs.enum.map (fun p => salarySteps p.1 p.2)).flatten
    warnings := [] }

/-! ## Micro business calculator (`calculate_micro_business`) -/

/-- Warnings emitted for one micro-business entry (one per failing
eligibility condition, only when turnover is positive). -/
def microWarnings (idx : ℕ) (m : MicroBusinessIncome) : List String :=
  if m.turnover ≤ 0 then []
  else
    (if m.no_employees then []
     else ["Micro business " ++ toString (idx + 1) ++
           ": Has employees - may not qualify for 0% rate"]) ++
    (if m.activity_allowed then []
     else ["Micro business " ++ toString (idx + 1) ++
           ": Activity may not be allowed for micro regime"])

/-- Steps emitted for one micro-business entry: the 0% step when eligible,
the 20% fallback step otherwise. -/
def microSteps (idx : ℕ) (m : MicroBusinessIncome) : List CalculationStep :=
  if m.turnover ≤ 0 then []
  else if m.no_employees && m.activity_allowed then
    [⟨"micro_" ++ toString idx ++ "_tax",
      StepValues.assignMul m.turnover 0.00, 0⟩]
  else
    [⟨"micro_" ++ toString idx ++ "_tax",
      StepValues.assignMul m.turnover 0.20, m.turnover * 0.20⟩]

/-- Tax contribution of one micro-business entry. -/
def microTax (m : MicroBusinessIncome) : ℚ :=
  if m.turnover ≤ 0 then 0
  else if m.no_employees && m.activity_allowed then 0
  else m.turnover * 0.20

/-- `calculate_micro_business`. -/
def calculate_micro_business (xs : List MicroBusinessIncome) : RegimeResult :=
  { regime_id := "micro_business"
    tax := (xs.map microTax).sum
    steps := (xs.enum.map (fun p => microSteps p.1 p.2)).flatten
    warnings := (xs.enum.map (fun p => microWarnings p.1 p.2)).flatten }

/-! ## Small business calculator (`calculate_small_business`) -/

/-- Warnings emitted for one small-business entry, in program order: the
not-registered warning, then the threshold-exceeded warning. -/
def smallWarnings (idx : ℕ) (s : SmallBusinessIncome) : List String :=
  if s.turnover ≤ 0 then []
  else
    (if s.registered then []
     else ["Small business " ++ toString (idx + 1) ++
           ": Not registered as small business"]) ++
    (if s.turnover ≤ 500000 then []
     else ["Small business " ++ toString (idx + 1) ++
           ": Turnover exceeds 500,000 GEL threshold"])

/-- Steps emitted for one small-business entry: a single 1% step up to the
500,000 threshold, otherwise the 1%-on-500k, 3%-on-excess and rolled-up
total steps. -/
def smallSteps (idx : ℕ) (s : SmallBusinessIncome) : List CalculationStep :=
  if s.turnover ≤ 0 then []
  else if s.turnover ≤ 500000 then
    [⟨"small_" ++ toString idx ++ "_tax",
      StepValues.assignMul s.turnover 0.01, s.turnover * 0.01⟩]
  else
    let tax_500k : ℚ := 500000 * 0.01
    let excess := s.turnover - 500000
    let tax_excess := excess * 0.03
    [ ⟨"small_" ++ toString idx ++ "_tax_500k",
        StepValues.assignMul 500000 0.01, tax_500k⟩,
      ⟨"small_" ++ toString idx ++ "_tax_excess",
        StepValues.assignMul excess 0.03, tax_excess⟩,
      ⟨"small_" ++ toString idx ++ "_tax_total",
        StepValues.assignAdd tax_500k tax_excess, tax_500k + tax_excess⟩ ]

/-- Tax contribution of one small-business entry. -/
def smallTax (s : SmallBusinessIncome) : ℚ :=
  if s.turnover ≤ 0 then 0
  else if s.turnover ≤ 500000 then s.turnover * 0.01
  else 500000 * 0.01 + (s.turnover - 500000) * 0.03

/-- `calculate_small_business`. -/
def calculate_small_business (xs : List SmallBusinessIncome) : RegimeResult :=
  { regime_id := "small_business"
    tax := (xs.map smallTax).sum
    steps := (xs.enum.map (fun p => smallSteps p.1 p.2)).flatten
    warnings := (xs.enum.map (fun p => smallWarnings p.1 p.2)).flatten }

/-! ## Rental calculator (`calculate_rental`) -/

/-- Steps emitted for one rental entry: the annual-rent step and the 5% or
20% tax step. -/
def rentalSteps (idx : ℕ) (r : RentalIncome) : List CalculationStep :=
  if r.monthly_rent ≤ 0 ∨ r.months ≤ 0 then []
  else
    let annual_rent := r.monthly_rent * (r.months : ℚ)
    let gross : CalculationStep :=
      ⟨"rental_" ++ toString idx ++ "_gross",
        StepValues.assignMul r.monthly_rent (r.months : ℚ), annual_rent⟩
    if r.special_5_percent then
      [gross, ⟨"rental_" ++ toString idx ++ "_tax",
        StepValues.assignMul annual_rent 0.05, annual_rent * 0.05⟩]
    else
      [gross, ⟨"rental_" ++ toString idx ++ "_tax",
        StepValues.assignMul annual_rent 0.20, annual_rent * 0.20⟩]

/-- Tax contribution of one rental entry. -/
def rentalTax (r : RentalIncome) : ℚ :=
  if r.monthly_rent ≤ 0 ∨ r.months ≤ 0 then 0
  else
    let annual_rent := r.monthly_rent * (r.months : ℚ)
    if r.special_5_percent then annual_rent * 0.05 else annual_rent * 0.20

/-- `calculate_rental`. -/
def calculate_rental (xs : List RentalIncome) : RegimeResult :=
  { regime_id := "rental"
    tax := (xs.map rentalTax).sum
    steps := (xs.enum.map (fun p => rentalSteps p.1 p.2)).flatten
    warnings := [] }

/-! ## Capital gains calculator (`calculate_capital_gains`) -/

/-- Steps emitted for one capital-gains entry: skipped when either price is
non-positive; otherwise the gain step followed by the loss / exemption /
5%-tax step. -/
def cgSteps (idx : ℕ) (c : CapitalGainsIncome) : List CalculationStep :=
  if c.sale_price ≤ 0 ∨ c.purchase_price ≤ 0 then []
  else
    ⟨"cg_" ++ toString idx ++ "_gain",
      StepValues.assignSub c.sale_price c.purchase_price,
      c.sale_price - c.purchase_price⟩ ::
    (if c.sale_price - c.purchase_price ≤ 0 then
      [⟨"cg_" ++ toString idx ++ "_tax", StepValues.assignLit 0, 0⟩]
    else if c.is_primary_residence then
      [⟨"cg_" ++ toString idx ++ "_tax", StepValues.assignLit 0, 0⟩]
    else
      [⟨"cg_" ++ toString idx ++ "_tax",
        StepValues.assignMul (c.sale_price - c.purchase_price) 0.05,
        (c.sale_price - c.purchase_price) * 0.05⟩])

/-- Tax contribution of one capital-gains entry. -/
def cgTax (c : CapitalGainsIncome) : ℚ :=
  if c.sale_price ≤ 0 ∨ c.purchase_price ≤ 0 then 0
  else if c.sale_price - c.purchase_price ≤ 0 then 0
  else if c.is_primary_residence then 0
  else (c.sale_price - c.purchase_price) * 0.05

/-- `calculate_capital_gains`. -/
def calculate_capital_gains (xs : List CapitalGainsIncome) : RegimeResult :=
  { regime_id := "capital_gains"
    tax := (xs.map cgTax).sum
    steps := (xs.enum.map (fun p => cgSteps p.1 p.2)).flatten
    warnings := [] }

/-! ## Dividends and interest calculators -/

/-- The aggregate of the positive dividend amounts
(`sum(d.amount for d in dividends_incomes if d.amount > 0)`). -/
def dividendsTotal (xs : List DividendsIncome) : ℚ :=
  ((xs.filter (fun d => 0 < d.amount)).map (fun d => d.amount)).sum

/-- `calculate_dividends`: aggregates the positive amounts and, when the
total is positive, emits one total step and one 5% tax step. -/
def calculate_dividends (xs : List DividendsIncome) : RegimeResult :=
  if 0 < dividendsTotal xs then
    { regime_id := "dividends"
      tax := dividendsTotal xs * 0.05
      steps := [ ⟨"dividends_total", StepValues.assignLit (dividendsTotal xs),
                   dividendsTotal xs⟩,
                 ⟨"dividends_tax",
                   StepValues.assignMul (dividendsTotal xs) 0.05,
                   dividendsTotal xs * 0.05⟩ ]
      warnings := [] }
  else
    { regime_id := "dividends", tax := 0, steps := [], warnings := [] }

/-- The aggregate of the positive interest amounts. -/
def interestTotal (xs : List InterestIncome) : ℚ :=
  ((xs.filter (fun i => 0 < i.amount)).map (fun i => i.amount)).sum

/-- `calculate_interest`: same aggregate shape as dividends. -/
def calculate_interest (xs : List InterestIncome) : RegimeResult :=
  if 0 < interestTotal xs then
    { regime_id := "interest"
      tax := interestTotal xs * 0.05
      steps := [ ⟨"interest_total", StepValues.assignLit (interestTotal xs),
                   interestTotal xs⟩,
                 ⟨"interest_tax",
                   StepValues.assignMul (interestTotal xs) 0.05,
                   interestTotal xs * 0.05⟩ ]
      warnings := [] }
  else
    { regime_id := "interest", tax := 0, steps := [], warnings := [] }

/-! ## Property tax calculator (`calculate_property_tax`) -/

/-- The tax rate used for one property entry: the entry's rate when
positive, else the 1% default. -/
def propertyRate (p : PropertyTaxInput) : ℚ :=
  if 0 < p.tax_rate then p.tax_rate else 0.01

/-- Steps emitted for one property entry: skipped when family income is
non-positive; otherwise the family-income check step and the property-count
step, followed by the zero-tax step (at or below the 65,000 threshold) or
the value-based / estimated tax steps (above it). -/
def propertySteps (idx : ℕ) (p : PropertyTaxInput) : List CalculationStep :=
  if p.family_income ≤ 0 then []
  else
    let pre : List CalculationStep :=
      [ ⟨"property_" ++ toString idx ++ "_check",
          StepValues.compareGT p.family_income 65000, p.family_income⟩,
        ⟨"property_" ++ toString idx ++ "_properties",
          StepValues.assignLit (p.properties : ℚ), (p.properties : ℚ)⟩ ]
    if p.family_income ≤ 65000 then
      pre ++ [⟨"property_" ++ toString idx ++ "_tax",
               StepValues.assignLit 0, 0⟩]
    else
      let rate := propertyRate p
      if p.property_values.isEmpty then
        pre ++ [⟨"property_" ++ toString idx ++ "_estimate",
                 StepValues.assignMul3 (p.properties : ℚ) 100000 rate,
                 (p.properties : ℚ) * 100000 * rate⟩]
      else
        let total_property_value := p.property_values.sum
        pre ++
          [ ⟨"property_" ++ toString idx ++ "_total_value",
              StepValues.assignLit total_property_value,
              total_property_value⟩,
            ⟨"property_" ++ toString idx ++ "_tax",
              StepValues.assignMul total_property_value rate,
              total_property_value * rate⟩ ] ++
          (if 1 < p.property_values.length then
            p.property_values.enum.map (fun q =>
              ⟨"property_" ++ toString idx ++ "_prop_" ++ toString q.1,
                StepValues.assignMul q.2 rate, q.2 * rate⟩)
          else [])

/-- Tax contribution of one property entry. -/
def propertyTax (p : PropertyTaxInput) : ℚ :=
  if p.family_income ≤ 0 then 0
  else if p.family_income ≤ 65000 then 0
  else if p.property_values.isEmpty then
    (p.properties : ℚ) * 100000 * propertyRate p
  else p.property_values.sum * propertyRate p

/-- `calculate_property_tax`; the source builds a local `warnings` list but
never appends to it and returns the literal empty list. -/
def calculate_property_tax (xs : List PropertyTaxInput) : RegimeResult :=
  { regime_id := "property_tax"
    tax := (xs.map propertyTax).sum
    steps := (xs.enum.map (fun p => propertySteps p.1 p.2)).flatten
    warnings := [] }

/-! ## Aggregator (`calculate_all`) -/

/-- The `by_regime` list built by `calculate_all`: one regime result per
non-empty category list, in the fixed source order. -/
def allRegimeResults (p : UserProfile) : List RegimeResult :=
  (if p.salary.isEmpty then [] else [calculate_salary p.salary]) ++
  (if p.micro_business.isEmpty then []
   else [calculate_micro_business p.micro_business]) ++
  (if p.small_business.isEmpty then []
   else [calculate_small_business p.small_business]) ++
  (if p.rental.isEmpty then [] else [calculate_rental p.rental]) ++
  (if p.capital_gains.isEmpty then []
   else [calculate_capital_gains p.capital_gains]) ++
  (if p.dividends.isEmpty then [] else [calculate_dividends p.dividends]) ++
  (if p.interest.isEmpty then [] else [calculate_interest p.interest]) ++
  (if p.property_tax.isEmpty then []
   else [calculate_property_tax p.property_tax])

/-- The simplified total-income figure of `calculate_all`, translated from
its per-category loops (a capital-gains entry contributes only when
`sale_price > purchase_price`; property entries contribute nothing). -/
def totalIncome (p : UserProfile) : ℚ :=
  (p.salary.map (fun s => s.monthly_gross * (s.months : ℚ))).sum +
  (p.micro_business.map (fun m => m.turnover)).sum +
  (p.small_business.map (fun s => s.turnover)).sum +
  (p.rental.map (fun r => r.monthly_rent * (r.months : ℚ))).sum +
  (p.capital_gains.map (fun c =>
    if c.purchase_price < c.sale_price then c.sale_price - c.purchase_price
    else 0)).sum +
  (p.dividends.map (fun d => d.amount)).sum +
  (p.interest.map (fun i => i.amount)).sum

/-- `calculate_all`. -/
def calculate_all (p : UserProfile) : CalculationResult :=
  let results := allRegimeResults p
  let total_tax := (results.map (fun r => r.tax)).sum
  let total_income := totalIncome p
  { year := p.year
    rules_version := "2025.01"
    residency := p.residency
    total_tax := total_tax
    effective_rate := if 0 < total_income then total_tax / total_income else 0
    by_regime := results
    total_income := total_income }

/-! ## Auxiliary predicates and spec-side definitions -/

/-- A step is faithful when evaluating its formula against its recorded
operand values yields exactly its recorded result; the property-tax
family-income check step, whose formula is a bare comparison rather than an
assignment, is carved out. -/
def stepFaithful (s : CalculationStep) : Prop :=
  (∃ a b, s.values = StepValues.compareGT a b) ∨
  evalValues s.values = some s.result

/-- Spec-side total income, phrased as in the specification: capital-gains
entries contribute `sale_price - purchase_price` for exactly those entries
with `sale_price > purchase_price` (a filtered sum), the other categories as
plain sums, property entries not at all.  Compared with the code-side
`totalIncome` in the refinement theorem for the total-income claim. -/
def specTotalIncome (p : UserProfile) : ℚ :=
  (p.salary.map (fun s => s.monthly_gross * (s.months : ℚ))).sum +
  (p.micro_business.map (fun m => m.turnover)).sum +
  (p.small_business.map (fun s => s.turnover)).sum +
  (p.rental.map (fun r => r.monthly_rent * (r.months : ℚ))).sum +
  ((p.capital_gains.filter
      (fun c => c.purchase_price < c.sale_price)).map
    (fun c => c.sale_price - c.purchase_price)).sum +
  (p.dividends.map (fun d => d.amount)).sum +
  (p.interest.map (fun i => i.amount)).sum

/-- The non-negativity constraints the specification's data-model section
places on income entries: all amounts, turnovers, rents, prices, family
incomes, property counts and property values are non-negative. -/
def profileNonneg (p : UserProfile) : Prop :=
  (∀ s ∈ p.salary, 0 ≤ s.monthly_gross) ∧
  (∀ m ∈ p.micro_business, 0 ≤ m.turnover) ∧
  (∀ s ∈ p.small_business, 0 ≤ s.turnover) ∧
  (∀ r ∈ p.rental, 0 ≤ r.monthly_rent) ∧
  (∀ c ∈ p.capital_gains, 0 ≤ c.purchase_price ∧ 0 ≤ c.sale_price) ∧
  (∀ d ∈ p.dividends, 0 ≤ d.amount) ∧
  (∀ i ∈ p.interest, 0 ≤ i.amount) ∧
  (∀ q ∈ p.property_tax,
    0 ≤ q.family_income ∧ 0 ≤ q.properties ∧
    ∀ v ∈ q.property_values, 0 ≤ v)

/-- The regime identifiers expected in `by_regime`: one per non-empty
category list, in the fixed source order. -/
def expectedRegimeIds (p : UserProfile) : List String :=
  (if p.salary.isEmpty then [] else ["salary"]) ++
  (if p.micro_business.isEmpty then [] else ["micro_business"]) ++
  (if p.small_business.isEmpty then [] else ["small_business"]) ++
  (if p.rental.isEmpty then [] else ["rental"]) ++
  (if p.capital_gains.isEmpty then [] else ["capital_gains"]) ++
  (if p.dividends.isEmpty then [] else ["dividends"]) ++
  (if p.interest.isEmpty then [] else ["interest"]) ++
  (if p.property_tax.isEmpty then [] else ["property_tax"])

/-! ## Helper lemmas -/

theorem mem_ite_nil_singleton {α : Type} {c : Prop} [Decidable c] {r x : α}
    (h : r ∈ (if c then ([] : List α) else [x])) : ¬ c ∧ r = x := by
  split at h
  · simp at h
  · simp at h
    exact ⟨by assumption, h⟩

theorem mem_regime_steps {steps : List CalculationStep} {s : CalculationStep}
    {α : Type} {xs : List α} {f : ℕ → α → List CalculationStep}
    (hsteps : steps = (xs.enum.map (fun p => f p.1 p.2)).flatten)
    (hs : s ∈ steps) : ∃ idx x, s ∈ f idx x := by
  subst hsteps
  rw [List.mem_flatten] at hs
  obtain ⟨l, hl, hsl⟩ := hs
  rw [List.mem_map] at hl
  obtain ⟨q, _, rfl⟩ := hl
  exact ⟨q.1, q.2, hsl⟩

theorem salarySteps_eval (idx : ℕ) (e : SalaryIncome) :
    ∀ s ∈ salarySteps idx e, evalValues s.values = some s.result := by
  intro s hs
  unfold salarySteps at hs
  split at hs
  · simp at hs
  · simp only [List.mem_cons, List.not_mem_nil, or_false] at hs
    rcases hs with h | h | h <;> subst h <;> rfl

theorem microSteps_eval (idx : ℕ) (e : MicroBusinessIncome) :
    ∀ s ∈ microSteps idx e, evalValues s.values = some s.result := by
  intro s hs
  unfold microSteps at hs
  split at hs
  · simp at hs
  · split at hs <;>
      (simp only [List.mem_cons, List.not_mem_nil, or_false] at hs;
       subst hs) <;> norm_num [evalValues]

theorem smallSteps_eval (idx : ℕ) (e : SmallBusinessIncome) :
    ∀ s ∈ smallSteps idx e, evalValues s.values = some s.result := by
  intro s hs
  unfold smallSteps at hs
  split at hs
  · simp at hs
  · split at hs
    · simp only [List.mem_cons, List.not_mem_nil, or_false] at hs
      subst hs; rfl
    · simp only [List.mem_cons, List.not_mem_nil, or_false] at hs
      rcases hs with h | h | h <;> subst h <;> rfl

theorem rentalSteps_eval (idx : ℕ) (e : RentalIncome) :
    ∀ s ∈ rentalSteps idx e, evalValues s.values = some s.result := by
  intro s hs
  unfold rentalSteps at hs
  split at hs
  · simp at hs
  · split at hs <;>
      (simp only [List.mem_cons, List.not_mem_nil, or_false] at hs;
       rcases hs with h | h <;> subst h <;> rfl)

theorem cgSteps_eval (idx : ℕ) (e : CapitalGainsIncome) :
    ∀ s ∈ cgSteps idx e, evalValues s.values = some s.result := by
  intro s hs
  unfold cgSteps at hs
  split at hs
  · simp at hs
  · rw [List.mem_cons] at hs
    rcases hs with h | hs
    · subst h; rfl
    · split at hs
      · simp only [List.mem_cons, List.not_mem_nil, or_false] at hs
        subst hs; rfl
      · split at hs <;>
          (simp only [List.mem_cons, List.not_mem_nil, or_false] at hs;
           subst hs; rfl)

theorem propertySteps_faithful (idx : ℕ) (e : PropertyTaxInput) :
    ∀ s ∈ propertySteps idx e, stepFaithful s := by
  intro s hs
  unfold propertySteps at hs
  split at hs
  · simp at hs
  · split at hs
    · simp only [List.mem_append, List.mem_cons, List.not_mem_nil,
        or_false] at hs
      rcases hs with (h | h) | h <;> subst h
      · exact Or.inl ⟨e.family_income, 65000, rfl⟩
      · exact Or.inr rfl
      · exact Or.inr rfl
    · split at hs
      · simp only [List.mem_append, List.mem_cons, List.not_mem_nil,
          or_false] at hs
        rcases hs with (h | h) | h <;> subst h
        · exact Or.inl ⟨e.family_income, 65000, rfl⟩
        · exact Or.inr rfl
        · exact Or.inr rfl
      · simp only [List.mem_append, List.mem_cons, List.not_mem_nil,
          or_false] at hs
        rcases hs with ((h | h) | h | h) | h
        · subst h; exact Or.inl ⟨e.family_income, 65000, rfl⟩
        · subst h; exact Or.inr rfl
        · subst h; exact Or.inr rfl
        · subst h; exact Or.inr rfl
        · split at h
          · rw [List.mem_map] at h
            obtain ⟨q, _, rfl⟩ := h
            exact Or.inr rfl
          · simp at h

theorem dividends_steps_eval (xs : List DividendsIncome) :
    ∀ s ∈ (calculate_dividends xs).steps,
      evalValues s.values = some s.result := by
  intro s hs
  unfold calculate_dividends at hs
  split at hs
  · simp only [List.mem_cons, List.not_mem_nil, or_false] at hs
    rcases hs with h | h <;> subst h <;> rfl
  · simp at hs

theorem interest_steps_eval (xs : List InterestIncome) :
    ∀ s ∈ (calculate_interest xs).steps,
      evalValues s.values = some s.result := by
  intro s hs
  unfold calculate_interest at hs
  split at hs
  · simp only [List.mem_cons, List.not_mem_nil, or_false] at hs
    rcases hs with h | h <;> subst h <;> rfl
  · simp at hs

theorem calculate_salary_steps_faithful (xs : List SalaryIncome) :
    ∀ s ∈ (calculate_salary xs).steps, stepFaithful s := by
  intro s hs
  obtain ⟨idx, x, h⟩ := mem_regime_steps rfl hs
  exact Or.inr (salarySteps_eval idx x s h)

theorem calculate_micro_steps_faithful (xs : List MicroBusinessIncome) :
    ∀ s ∈ (calculate_micro_business xs).steps, stepFaithful s := by
  intro s hs
  obtain ⟨idx, x, h⟩ := mem_regime_steps rfl hs
  exact Or.inr (microSteps_eval idx x s h)

theorem calculate_small_steps_faithful (xs : List SmallBusinessIncome) :
    ∀ s ∈ (calculate_small_business xs).steps, stepFaithful s := by
  intro s hs
  obtain ⟨idx, x, h⟩ := mem_regime_steps rfl hs
  exact Or.inr (smallSteps_eval idx x s h)

theorem calculate_rental_steps_faithful (xs : List RentalIncome) :
    ∀ s ∈ (calculate_rental xs).steps, stepFaithful s := by
  intro s hs
  obtain ⟨idx, x, h⟩ := mem_regime_steps rfl hs
  exact Or.inr (rentalSteps_eval idx x s h)

theorem calculate_cg_steps_faithful (xs : List CapitalGainsIncome) :
    ∀ s ∈ (calculate_capital_gains xs).steps, stepFaithful s := by
  intro s hs
  obtain ⟨idx, x, h⟩ := mem_regime_steps rfl hs
  exact Or.inr (cgSteps_eval idx x s h)

theorem calculate_property_steps_faithful (xs : List PropertyTaxInput) :
    ∀ s ∈ (calculate_property_tax xs).steps, stepFaithful s := by
  intro s hs
  obtain ⟨idx, x, h⟩ := mem_regime_steps rfl hs
  exact propertySteps_faithful idx x s h

theorem mem_allRegimeResults {p : UserProfile} {r : RegimeResult}
    (hr : r ∈ allRegimeResults p) :
    r = calculate_salary p.salary ∨
    r = calculate_micro_business p.micro_business ∨
    r = calculate_small_business p.small_business ∨
    r = calculate_rental p.rental ∨
    r = calculate_capital_gains p.capital_gains ∨
    r = calculate_dividends p.dividends ∨
    r = calculate_interest p.interest ∨
    r = calculate_property_tax p.property_tax := by
  unfold allRegimeResults at hr
  simp only [List.mem_append] at hr
  rcases hr with ((((((h | h) | h) | h) | h) | h) | h) | h
  · exact Or.inl (mem_ite_nil_singleton h).2
  · exact Or.inr (Or.inl (mem_ite_nil_singleton h).2)
  · exact Or.inr (Or.inr (Or.inl (mem_ite_nil_singleton h).2))
  · exact Or.inr (Or.inr (Or.inr (Or.inl (mem_ite_nil_singleton h).2)))
  · exact Or.inr (Or.inr (Or.inr (Or.inr
      (Or.inl (mem_ite_nil_singleton h).2))))
  · exact Or.inr (Or.inr (Or.inr (Or.inr (Or.inr
      (Or.inl (mem_ite_nil_singleton h).2)))))
  · exact Or.inr (Or.inr (Or.inr (Or.inr (Or.inr (Or.inr
      (Or.inl (mem_ite_nil_singleton h).2))))))
  · exact Or.inr (Or.inr (Or.inr (Or.inr (Or.inr (Or.inr
      (Or.inr (mem_ite_nil_singleton h).2))))))

theorem salaryTax_nonneg (e : SalaryIncome) : 0 ≤ salaryTax e := by
  unfold salaryTax
  split
  · exact le_refl 0
  · rename_i h
    push_neg at h
    exact mul_nonneg (mul_nonneg (le_of_lt h.1)
      (le_of_lt (by exact_mod_cast h.2))) (by norm_num)

theorem microTax_nonneg (e : MicroBusinessIncome) : 0 ≤ microTax e := by
  unfold microTax
  split
  · exact le_refl 0
  · split
    · exact le_refl 0
    · rename_i h _
      exact mul_nonneg (le_of_lt (not_le.mp h)) (by norm_num)

theorem smallTax_nonneg (e : SmallBusinessIncome) : 0 ≤ smallTax e := by
  unfold smallTax
  split
  · exact le_refl 0
  · split
    · rename_i h _
      exact mul_nonneg (le_of_lt (not_le.mp h)) (by norm_num)
    · rename_i _ h
      have h5 : (500000 : ℚ) < e.turnover := not_le.mp h
      have : 0 ≤ (e.turnover - 500000) * 0.03 :=
        mul_nonneg (by linarith) (by norm_num)
      linarith

theorem rentalTax_nonneg (e : RentalIncome) : 0 ≤ rentalTax e := by
  unfold rentalTax
  split
  · exact le_refl 0
  · rename_i h
    push_neg at h
    have hr : (0 : ℚ) ≤ e.monthly_rent * (e.months : ℚ) :=
      mul_nonneg (le_of_lt h.1) (le_of_lt (by exact_mod_cast h.2))
    split
    · exact mul_nonneg hr (by norm_num)
    · exact mul_nonneg hr (by norm_num)

theorem cgTax_nonneg (e : CapitalGainsIncome) : 0 ≤ cgTax e := by
  unfold cgTax
  split
  · exact le_refl 0
  · split
    · exact le_refl 0
    · split
      · exact le_refl 0
      · rename_i h _
        exact mul_nonneg (le_of_lt (not_le.mp h)) (by norm_num)

theorem dividendsTotal_nonneg (xs : List DividendsIncome) :
    0 ≤ dividendsTotal xs := by
  refine List.sum_nonneg ?_
  intro x hx
  rw [List.mem_map] at hx
  obtain ⟨d, hd, rfl⟩ := hx
  exact le_of_lt (by simpa using (List.mem_filter.mp hd).2)

theorem interestTotal_nonneg (xs : List InterestIncome) :
    0 ≤ interestTotal xs := by
  refine List.sum_nonneg ?_
  intro x hx
  rw [List.mem_map] at hx
  obtain ⟨d, hd, rfl⟩ := hx
  exact le_of_lt (by simpa using (List.mem_filter.mp hd).2)

theorem propertyRate_pos (e : PropertyTaxInput) : 0 < propertyRate e := by
  unfold propertyRate
  split
  · assumption
  · norm_num

theorem propertyTax_nonneg (e : PropertyTaxInput) (h1 : 0 ≤ e.properties)
    (h2 : ∀ v ∈ e.property_values, 0 ≤ v) : 0 ≤ propertyTax e := by
  unfold propertyTax
  split
  · exact le_refl 0
  · split
    · exact le_refl 0
    · split
      · exact mul_nonneg (mul_nonneg (by exact_mod_cast h1) (by norm_num))
          (le_of_lt (propertyRate_pos e))
      · exact mul_nonneg (List.sum_nonneg h2)
          (le_of_lt (propertyRate_pos e))

theorem calculate_dividends_tax_nonneg (xs : List DividendsIncome) :
    0 ≤ (calculate_dividends xs).tax := by
  unfold calculate_dividends
  split
  · exact mul_nonneg (dividendsTotal_nonneg xs) (by norm_num)
  · exact le_refl 0

theorem calculate_interest_tax_nonneg (xs : List InterestIncome) :
    0 ≤ (calculate_interest xs).tax := by
  unfold calculate_interest
  split
  · exact mul_nonneg (interestTotal_nonneg xs) (by norm_num)
  · exact le_refl 0

theorem sum_map_tax_nonneg {α : Type} (f : α → ℚ) (xs : List α)
    (h : ∀ x, 0 ≤ f x) : 0 ≤ (xs.map f).sum := by
  refine List.sum_nonneg ?_
  intro x hx
  rw [List.mem_map] at hx
  obtain ⟨a, _, rfl⟩ := hx
  exact h a

theorem sum_filter_pos_gain (l : List CapitalGainsIncome) :
    ((l.filter (fun c => c.purchase_price < c.sale_price)).map
      (fun c => c.sale_price - c.purchase_price)).sum =
    (l.map (fun c => if c.purchase_price < c.sale_price
      then c.sale_price - c.purchase_price else 0)).sum := by
  induction l with
  | nil => rfl
  | cons c t ih =>
    by_cases hc : c.purchase_price < c.sale_price <;>
      simp [List.filter_cons, hc, ih]

/-! ## Claim theorems -/

/-- C1, counterexample: the claim that every step's recorded result equals
the value obtained by evaluating the step's own formula against its recorded
values fails on the property-tax family-income check step, whose formula is
the bare comparison `family_income > 65,000` (no numeric value) while its
recorded result is the family income itself. -/
theorem step_result_eval_counterexample :
    ∃ r ∈ (calculate_all
        ({ property_tax := [⟨50000, 1, [], 0.01, 40000⟩] } :
          UserProfile)).by_regime,
      ∃ s ∈ r.steps, evalValues s.values ≠ some s.result := by
  refine ⟨calculate_property_tax [⟨50000, 1, [], 0.01, 40000⟩], ?_,
    ⟨"property_0_check", StepValues.compareGT 50000 65000, 50000⟩, ?_, ?_⟩
  · show _ ∈ allRegimeResults _
    simp [allRegimeResults]
  · norm_num [calculate_property_tax, propertySteps]
    rfl
  · simp [evalValues]

/-- C1, amended: for every profile, every step emitted by every regime
calculator either has its recorded result equal to the value obtained by
evaluating its formula against its recorded operand values, or is the
property-tax family-income check step, whose formula is a threshold
comparison rather than an assignment and whose result field records the
family income. -/
theorem step_result_matches_values (p : UserProfile) :
    ∀ r ∈ (calculate_all p).by_regime, ∀ s ∈ r.steps, stepFaithful s := by
  intro r hr s hs
  have hr' : r ∈ allRegimeResults p := hr
  rcases mem_allRegimeResults hr' with h | h | h | h | h | h | h | h <;>
    subst h
  · exact calculate_salary_steps_faithful _ s hs
  · exact calculate_micro_steps_faithful _ s hs
  · exact calculate_small_steps_faithful _ s hs
  · exact calculate_rental_steps_faithful _ s hs
  · exact calculate_cg_steps_faithful _ s hs
  · exact Or.inr (dividends_steps_eval _ s hs)
  · exact Or.inr (interest_steps_eval _ s hs)
  · exact calculate_property_steps_faithful _ s hs

/-- C1, witness: the amended theorem applied to a concrete profile and the
concrete annual-gross salary step. -/
theorem step_result_matches_values_witness :
    stepFaithful ⟨"salary_0_gross", StepValues.assignMul 3000 12, 36000⟩ := by
  refine step_result_matches_values { salary := [⟨3000, 12, 0.02⟩] }
    (calculate_salary [⟨3000, 12, 0.02⟩]) ?_ _ ?_
  · show _ ∈ allRegimeResults _
    simp [allRegimeResults]
  · norm_num [calculate_salary, salarySteps]
    rfl

/-- C3: for every profile, `calculate_all`'s total income equals the
spec-side figure: gross salary pay plus full business turnovers plus full
annual rents plus the positive capital gains (sale above purchase, primary
residence included, losses ignored) plus all dividend and interest amounts;
and property-tax entries contribute nothing (replacing them leaves the
total income unchanged). -/
theorem total_income_spec (p : UserProfile) :
    (calculate_all p).total_income = specTotalIncome p ∧
    ∀ ps : List PropertyTaxInput,
      (calculate_all { p with property_tax := ps }).total_income =
        (calculate_all p).total_income := by
  constructor
  · show totalIncome p = specTotalIncome p
    unfold totalIncome specTotalIncome
    rw [sum_filter_pos_gain]
  · intro ps
    rfl

/-- C8: the aggregator is deterministic — two invocations on the same
(unmodified) profile value return identical `CalculationResult`s; the
embedded `calculate_all` is a pure function of the profile, mirroring the
source, whose calculators read only their input lists and build fresh
objects. -/
theorem calculate_all_deterministic (p₁ p₂ : UserProfile) (h : p₁ = p₂) :
    calculate_all p₁ = calculate_all p₂ ∧
    (calculate_all p₁).total_tax = (calculate_all p₂).total_tax ∧
    (calculate_all p₁).total_income = (calculate_all p₂).total_income ∧
    (calculate_all p₁).effective_rate = (calculate_all p₂).effective_rate ∧
    (calculate_all p₁).by_regime = (calculate_all p₂).by_regime := by
  subst h
  exact ⟨rfl, rfl, rfl, rfl, rfl⟩

/-- C8, witness: determinism at a concrete profile. -/
theorem calculate_all_deterministic_witness :
    calculate_all { salary := [⟨3000, 12, 0.02⟩] } =
      calculate_all { salary := [⟨3000, 12, 0.02⟩] } :=
  (calculate_all_deterministic { salary := [⟨3000, 12, 0.02⟩] }
    { salary := [⟨3000, 12, 0.02⟩] } rfl).1

/-- C10: `calculate_property_tax` returns an empty warnings list on every
input — the source builds a local warnings list, never appends to it, and
returns the literal empty list. -/
theorem property_tax_warnings_empty (xs : List PropertyTaxInput) :
    (calculate_property_tax xs).warnings = [] := rfl

/-- C2, counterexample: the claim also covers `family_income = 0` (it asks
only for `0 ≤ family_income ≤ 65,000`), but the source skips entries with
non-positive family income entirely: no check step, no property-count step
and no zero-tax step is recorded. -/
theorem property_zero_income_counterexample :
    (0 : ℚ) ≤ 0 ∧ (0 : ℚ) ≤ 65000 ∧
    (calculate_property_tax
      [⟨0, 2, [], 0.01, 40000⟩]).steps = [] := by
  refine ⟨le_refl 0, by norm_num, rfl⟩

/-- C2, amended: for every property-tax entry with `0 < family_income` and
`family_income ≤ 65,000`, the calculator records exactly the family-income
check step, the property-count step and a zero-tax step, contributes
nothing to the regime total, and (like the whole regime) emits no
warning. -/
theorem property_below_threshold (idx : ℕ) (e : PropertyTaxInput)
    (h0 : 0 < e.family_income) (h65 : e.family_income ≤ 65000) :
    propertySteps idx e =
      [ ⟨"property_" ++ toString idx ++ "_check",
          StepValues.compareGT e.family_income 65000, e.family_income⟩,
        ⟨"property_" ++ toString idx ++ "_properties",
          StepValues.assignLit (e.properties : ℚ), (e.properties : ℚ)⟩,
        ⟨"property_" ++ toString idx ++ "_tax",
          StepValues.assignLit 0, 0⟩ ] ∧
    propertyTax e = 0 ∧
    (calculate_property_tax [e]).warnings = [] ∧
    (calculate_property_tax [e]).tax = 0 := by
  refine ⟨?_, ?_, rfl, ?_⟩
  · unfold propertySteps
    rw [if_neg (not_le.mpr h0), if_pos h65]
    rfl
  · unfold propertyTax
    rw [if_neg (not_le.mpr h0), if_pos h65]
  · show ([e].map propertyTax).sum = 0
    have he : propertyTax e = 0 := by
      unfold propertyTax
      rw [if_neg (not_le.mpr h0), if_pos h65]
    simp [he]

/-- C2, witness: the amended theorem at the spec's example
`family_income = 50,000`. -/
theorem property_below_threshold_witness :
    propertySteps 0 (⟨50000, 1, [], 0.01, 40000⟩ : PropertyTaxInput) =
      [ ⟨"property_0_check", StepValues.compareGT 50000 65000, 50000⟩,
        ⟨"property_0_properties", StepValues.assignLit 1, 1⟩,
        ⟨"property_0_tax", StepValues.assignLit 0, 0⟩ ] ∧
    (calculate_property_tax
      [(⟨50000, 1, [], 0.01, 40000⟩ : PropertyTaxInput)]).warnings = [] ∧
    (calculate_property_tax
      [(⟨50000, 1, [], 0.01, 40000⟩ : PropertyTaxInput)]).tax = 0 := by
  have h := property_below_threshold 0
    (⟨50000, 1, [], 0.01, 40000⟩ : PropertyTaxInput)
    (by norm_num) (by norm_num)
  exact ⟨h.1, h.2.2.1, h.2.2.2⟩

/-- C4: for every micro-business entry with positive turnover — if both
eligibility conditions hold, the single recorded step has result 0, the
tax contribution is 0 and no warning is emitted; if either condition
fails, the fallback step records `turnover * 0.20`, that amount is the
entry's tax contribution, one warning is emitted per failing condition,
and the regime total over a singleton list equals the contribution. -/
theorem micro_business_eligibility (idx : ℕ) (m : MicroBusinessIncome)
    (h : 0 < m.turnover) :
    (m.no_employees = true ∧ m.activity_allowed = true →
      microSteps idx m =
        [⟨"micro_" ++ toString idx ++ "_tax",
          StepValues.assignMul m.turnover 0.00, 0⟩] ∧
      microTax m = 0 ∧ microWarnings idx m = []) ∧
    (¬(m.no_employees = true ∧ m.activity_allowed = true) →
      microSteps idx m =
        [⟨"micro_" ++ toString idx ++ "_tax",
          StepValues.assignMul m.turnover 0.20, m.turnover * 0.20⟩] ∧
      microTax m = m.turnover * 0.20 ∧
      (microWarnings idx m).length =
        (if m.no_employees then 0 else 1) +
        (if m.activity_allowed then 0 else 1) ∧
      microWarnings idx m ≠ []) ∧
    (calculate_micro_business [m]).tax = microTax m := by
  have hne := not_le.mpr h
  refine ⟨?_, ?_, ?_⟩
  · intro ⟨h1, h2⟩
    simp [microSteps, microTax, microWarnings, hne, h1, h2]
  · intro hcond
    cases hno : m.no_employees <;> cases hac : m.activity_allowed
    · simp [microSteps, microTax, microWarnings, hne, hno, hac]
    · simp [microSteps, microTax, microWarnings, hne, hno, hac]
    · simp [microSteps, microTax, microWarnings, hne, hno, hac]
    · exact absurd ⟨hno, hac⟩ hcond
  · show ([m].map microTax).sum = microTax m
    simp

/-- C4, witness: the spec's ineligible example — turnover 30,000 with
employees gives tax 6,000 and a non-empty warning list. -/
theorem micro_business_eligibility_witness :
    microTax (⟨30000, false, true⟩ : MicroBusinessIncome) = 6000 ∧
    microWarnings 0 (⟨30000, false, true⟩ : MicroBusinessIncome) ≠ [] := by
  have h := micro_business_eligibility 0
    (⟨30000, false, true⟩ : MicroBusinessIncome) (by norm_num)
  have h2 := h.2.1 (by simp)
  refine ⟨?_, h2.2.2.2⟩
  rw [h2.2.1]
  norm_num

theorem calculate_dividends_regime_id (xs : List DividendsIncome) :
    (calculate_dividends xs).regime_id = "dividends" := by
  unfold calculate_dividends
  split <;> rfl

theorem calculate_interest_regime_id (xs : List InterestIncome) :
    (calculate_interest xs).regime_id = "interest" := by
  unfold calculate_interest
  split <;> rfl

/-- C5: for every small-business entry with positive turnover — at or below
the 500,000 threshold exactly one 1% step is recorded and the contribution
is `turnover * 0.01`; above it the three steps (1% on the first 500,000, 3%
on the excess, rolled-up total) are recorded, the threshold warning is
emitted and the contribution is `500,000 * 0.01 + excess * 0.03`; an
unregistered entry adds the registration warning without changing the tax;
the regime total over a singleton list equals the contribution. -/
theorem small_business_threshold (idx : ℕ) (s : SmallBusinessIncome)
    (h : 0 < s.turnover) :
    (s.turnover ≤ 500000 →
      smallSteps idx s =
        [⟨"small_" ++ toString idx ++ "_tax",
          StepValues.assignMul s.turnover 0.01, s.turnover * 0.01⟩] ∧
      smallTax s = s.turnover * 0.01) ∧
    (500000 < s.turnover →
      smallSteps idx s =
        [ ⟨"small_" ++ toString idx ++ "_tax_500k",
            StepValues.assignMul 500000 0.01, 500000 * 0.01⟩,
          ⟨"small_" ++ toString idx ++ "_tax_excess",
            StepValues.assignMul (s.turnover - 500000) 0.03,
            (s.turnover - 500000) * 0.03⟩,
          ⟨"small_" ++ toString idx ++ "_tax_total",
            StepValues.assignAdd (500000 * 0.01) ((s.turnover - 500000) * 0.03),
            500000 * 0.01 + (s.turnover - 500000) * 0.03⟩ ] ∧
      smallTax s = 500000 * 0.01 + (s.turnover - 500000) * 0.03 ∧
      ("Small business " ++ toString (idx + 1) ++
        ": Turnover exceeds 500,000 GEL threshold") ∈ smallWarnings idx s) ∧
    (s.registered = false →
      ("Small business " ++ toString (idx + 1) ++
        ": Not registered as small business") ∈ smallWarnings idx s) ∧
    (∀ b, smallTax { s with registered := b } = smallTax s) ∧
    (s.registered = true → s.turnover ≤ 500000 →
      smallWarnings idx s = []) ∧
    (calculate_small_business [s]).tax = smallTax s := by
  have hne := not_le.mpr h
  refine ⟨?_, ?_, ?_, ?_, ?_, ?_⟩
  · intro h5
    simp [smallSteps, smallTax, hne, h5]
  · intro h5
    have h5' := not_le.mpr h5
    refine ⟨?_, ?_, ?_⟩
    · simp [smallSteps, hne, h5']
    · simp [smallTax, hne, h5']
    · simp [smallWarnings, hne, h5']
  · intro hreg
    simp [smallWarnings, hne, hreg]
  · intro b
    rfl
  · intro hreg h5
    simp [smallWarnings, hne, hreg, h5]
  · show ([s].map smallTax).sum = smallTax s
    simp

/-- C5, witness: the spec's example — turnover 600,000 yields tax 8,000
with the threshold warning. -/
theorem small_business_threshold_witness :
    smallTax (⟨600000, true⟩ : SmallBusinessIncome) = 8000 ∧
    ("Small business 1: Turnover exceeds 500,000 GEL threshold") ∈
      smallWarnings 0 (⟨600000, true⟩ : SmallBusinessIncome) := by
  have h := (small_business_threshold 0
    (⟨600000, true⟩ : SmallBusinessIncome) (by norm_num)).2.1 (by norm_num)
  constructor
  · rw [h.2.1]
    norm_num
  · exact h.2.2

/-- C6: for every salary entry with positive gross and months, the three
steps (annual gross, pension contribution, 20% PIT) are recorded with the
stated results and the entry's tax contribution is only the PIT (the
pension result is absent from it); entries with non-positive gross or
months produce no steps; the salary regime never emits warnings and a
singleton regime total equals the contribution. -/
theorem salary_entry_steps (idx : ℕ) (e : SalaryIncome) :
    (0 < e.monthly_gross ∧ 0 < e.months →
      salarySteps idx e =
        [ ⟨"salary_" ++ toString idx ++ "_gross",
            StepValues.assignMul e.monthly_gross (e.months : ℚ),
            e.monthly_gross * (e.months : ℚ)⟩,
          ⟨"salary_" ++ toString idx ++ "_pension",
            StepValues.assignMul (e.monthly_gross * (e.months : ℚ))
              e.pension_employee_rate,
            e.monthly_gross * (e.months : ℚ) * e.pension_employee_rate⟩,
          ⟨"salary_" ++ toString idx ++ "_pit",
            StepValues.assignMul (e.monthly_gross * (e.months : ℚ)) 0.20,
            e.monthly_gross * (e.months : ℚ) * 0.20⟩ ] ∧
      salaryTax e = e.monthly_gross * (e.months : ℚ) * 0.20) ∧
    (¬(0 < e.monthly_gross ∧ 0 < e.months) →
      salarySteps idx e = [] ∧ salaryTax e = 0) ∧
    (calculate_salary [e]).tax = salaryTax e ∧
    (calculate_salary [e]).warnings = [] := by
  refine ⟨?_, ?_, ?_, rfl⟩
  · intro ⟨h1, h2⟩
    have hn : ¬(e.monthly_gross ≤ 0 ∨ e.months ≤ 0) := by
      push_neg
      exact ⟨h1, h2⟩
    simp [salarySteps, salaryTax, hn]
  · intro hn
    rcases not_and_or.mp hn with hc | hc
    · have := not_lt.mp hc
      simp [salarySteps, salaryTax, this]
    · have := not_lt.mp hc
      simp [salarySteps, salaryTax, this]
  · show ([e].map salaryTax).sum = salaryTax e
    simp

/-- C6, witness: the spec's example — gross 3,000 over 12 months at 2%
pension rate gives annual 36,000, PIT 7,200 (the regime tax) and pension
720 recorded but not added. -/
theorem salary_entry_steps_witness :
    salaryTax (⟨3000, 12, 0.02⟩ : SalaryIncome) = 7200 ∧
    salarySteps 0 (⟨3000, 12, 0.02⟩ : SalaryIncome) =
      [ ⟨"salary_0_gross", StepValues.assignMul 3000 12, 36000⟩,
        ⟨"salary_0_pension", StepValues.assignMul 36000 0.02, 720⟩,
        ⟨"salary_0_pit", StepValues.assignMul 36000 0.20, 7200⟩ ] ∧
    (calculate_salary [(⟨3000, 12, 0.02⟩ : SalaryIncome)]).tax = 7200 := by
  have h := salary_entry_steps 0 (⟨3000, 12, 0.02⟩ : SalaryIncome)
  have h1 := h.1 (by norm_num)
  refine ⟨?_, ?_, ?_⟩
  · rw [h1.2]
    norm_num
  · rw [h1.1]
    norm_num
    exact ⟨rfl, rfl, rfl⟩
  · rw [h.2.2.1, h1.2]
    norm_num

/-- C7: for every profile, the regime identifiers appearing in `by_regime`
are exactly those of the categories with a non-empty entry list, in the
fixed source order (salary, micro business, small business, rental, capital
gains, dividends, interest, property); and the empty profile yields an
empty `by_regime`, zero total tax, zero total income and zero effective
rate. -/
theorem by_regime_structure (p : UserProfile) :
    (calculate_all p).by_regime.map (fun r => r.regime_id) =
      expectedRegimeIds p ∧
    (p.salary = [] ∧ p.micro_business = [] ∧ p.small_business = [] ∧
     p.rental = [] ∧ p.capital_gains = [] ∧ p.dividends = [] ∧
     p.interest = [] ∧ p.property_tax = [] →
      (calculate_all p).by_regime = [] ∧
      (calculate_all p).total_tax = 0 ∧
      (calculate_all p).total_income = 0 ∧
      (calculate_all p).effective_rate = 0) := by
  constructor
  · show (allRegimeResults p).map (fun r => r.regime_id) =
      expectedRegimeIds p
    unfold allRegimeResults expectedRegimeIds
    simp only [List.map_append,
      apply_ite (List.map (fun r : RegimeResult => r.regime_id)),
      List.map_nil, List.map_cons, calculate_dividends_regime_id,
      calculate_interest_regime_id]
    rfl
  · intro ⟨h1, h2, h3, h4, h5, h6, h7, h8⟩
    simp [calculate_all, allRegimeResults, totalIncome,
      h1, h2, h3, h4, h5, h6, h7, h8]

/-- C7, witness: the structure theorem at the empty profile. -/
theorem by_regime_structure_witness :
    (calculate_all ({} : UserProfile)).by_regime = [] ∧
    (calculate_all ({} : UserProfile)).total_tax = 0 ∧
    (calculate_all ({} : UserProfile)).total_income = 0 ∧
    (calculate_all ({} : UserProfile)).effective_rate = 0 :=
  (by_regime_structure ({} : UserProfile)).2
    ⟨rfl, rfl, rfl, rfl, rfl, rfl, rfl, rfl⟩

/-- C9: for every profile satisfying the data-model non-negativity
constraints, every regime result in `by_regime` has non-negative tax, and
the aggregator's total tax and effective rate are non-negative. -/
theorem tax_nonneg (p : UserProfile) (h : profileNonneg p) :
    (∀ r ∈ (calculate_all p).by_regime, 0 ≤ r.tax) ∧
    0 ≤ (calculate_all p).total_tax ∧
    0 ≤ (calculate_all p).effective_rate := by
  obtain ⟨-, -, -, -, -, -, -, hprop⟩ := h
  have hreg : ∀ r ∈ (calculate_all p).by_regime, 0 ≤ r.tax := by
    intro r hr
    have hr' : r ∈ allRegimeResults p := hr
    rcases mem_allRegimeResults hr' with hx | hx | hx | hx | hx | hx | hx | hx
      <;> subst hx
    · exact sum_map_tax_nonneg salaryTax p.salary salaryTax_nonneg
    · exact sum_map_tax_nonneg microTax p.micro_business microTax_nonneg
    · exact sum_map_tax_nonneg smallTax p.small_business smallTax_nonneg
    · exact sum_map_tax_nonneg rentalTax p.rental rentalTax_nonneg
    · exact sum_map_tax_nonneg cgTax p.capital_gains cgTax_nonneg
    · exact calculate_dividends_tax_nonneg p.dividends
    · exact calculate_interest_tax_nonneg p.interest
    · show 0 ≤ (p.property_tax.map propertyTax).sum
      refine List.sum_nonneg ?_
      intro x hx
      rw [List.mem_map] at hx
      obtain ⟨a, ha, rfl⟩ := hx
      exact propertyTax_nonneg a (hprop a ha).2.1 (hprop a ha).2.2
  have htot : 0 ≤ (calculate_all p).total_tax := by
    show 0 ≤ ((allRegimeResults p).map (fun r => r.tax)).sum
    refine List.sum_nonneg ?_
    intro x hx
    rw [List.mem_map] at hx
    obtain ⟨r, hrmem, rfl⟩ := hx
    exact hreg r hrmem
  refine ⟨hreg, htot, ?_⟩
  show 0 ≤ if 0 < totalIncome p then
    ((allRegimeResults p).map (fun r => r.tax)).sum / totalIncome p else 0
  split
  · exact div_nonneg htot (le_of_lt (by assumption))
  · exact le_refl 0

/-- C9, witness: non-negativity at a concrete constraint-satisfying
profile. -/
theorem tax_nonneg_witness :
    0 ≤ (calculate_all
      ({ salary := [⟨3000, 12, 0.02⟩],
         property_tax := [⟨80000, 2, [], 0.01, 40000⟩] } :
        UserProfile)).total_tax ∧
    0 ≤ (calculate_all
      ({ salary := [⟨3000, 12, 0.02⟩],
         property_tax := [⟨80000, 2, [], 0.01, 40000⟩] } :
        UserProfile)).effective_rate := by
  have h := tax_nonneg
    ({ salary := [⟨3000, 12, 0.02⟩],
       property_tax := [⟨80000, 2, [], 0.01, 40000⟩] } : UserProfile)
    (by
      refine ⟨?_, ?_, ?_, ?_, ?_, ?_, ?_, ?_⟩ <;>
        intro x hx <;> simp at hx <;> subst hx <;> norm_num)
  exact ⟨h.2.1, h.2.2⟩

end TaxCore
